import Mathlib

/-!
# Verification of the booking / property-assignment backend

Shallow embedding of the core routes of the property-booking backend:
* `POST /api/property-assignment` (routes/property-assignment.ts)
* `POST /api/stripe/create-session` and `POST /api/stripe/webhook` (routes/stripe.ts)
* `POST /api/booking-requests` (routes/booking-requests.ts)

The persistence collaborator (Supabase) is modelled as an explicit record of
tables (lists of rows); each handler is a pure function from request, database
state and an oracle of external outcomes (which Supabase calls fail, which ids
the collaborators mint) to a response and the new database state.
-/

namespace DionBackend

/-! ## Dates

The handlers compare dates with JavaScript `new Date(s)` on ISO `yyyy-mm-dd`
strings, which parse to UTC-midnight timestamps in milliseconds.  `jsTime`
returns `none` for a string that is not a valid ISO date (JS would produce an
`Invalid Date` whose `NaN` timestamp makes every comparison false). -/

def isLeap (y : Nat) : Bool :=
  (y % 4 == 0 && y % 100 != 0) || y % 400 == 0

def daysInMonth (y m : Nat) : Nat :=
  if m == 2 then (if isLeap y then 29 else 28)
  else if m == 4 || m == 6 || m == 9 || m == 11 then 30
  else 31

/-- Days from 1970-01-01 to the first day of year `y` (for `y ≥ 1970`). -/
def daysBeforeYear (y : Nat) : Nat :=
  (List.range (y - 1970)).foldl
    (fun acc i => acc + (if isLeap (1970 + i) then 366 else 365)) 0

/-- Days from the first day of year `y` to the first day of its month `m`. -/
def daysBeforeMonth (y m : Nat) : Nat :=
  (List.range (m - 1)).foldl (fun acc i => acc + daysInMonth y (i + 1)) 0

/-- Day number (days since the Unix epoch) of a calendar date, `y ≥ 1970`. -/
def dayNumber (y m d : Nat) : Nat :=
  daysBeforeYear y + daysBeforeMonth y m + (d - 1)

def digitVal (c : Char) : Option Nat :=
  if '0' ≤ c ∧ c ≤ '9' then some (c.toNat - Char.toNat '0') else none

def parseNatDigits (cs : List Char) : Option Nat :=
  match cs with
  | [] => none
  | _ =>
    cs.foldl (fun acc c =>
      match acc, digitVal c with
      | some a, some d => some (a * 10 + d)
      | _, _ => none) (some 0)

def splitOnDash (cs : List Char) : List (List Char) :=
  match cs with
  | [] => [[]]
  | c :: rest =>
    let r := splitOnDash rest
    if c = '-' then [] :: r
    else
      match r with
      | [] => [[c]]
      | g :: gs => (c :: g) :: gs

def parseYMD (s : String) : Option (Nat × Nat × Nat) :=
  match (splitOnDash s.toList).map parseNatDigits with
  | [some y, some m, some d] =>
    if 1970 ≤ y ∧ 1 ≤ m ∧ m ≤ 12 ∧ 1 ≤ d ∧ d ≤ daysInMonth y m then
      some (y, m, d)
    else none
  | _ => none

/-- `new Date(s).getTime()` for an ISO date-only string (milliseconds). -/
def jsTime (s : String) : Option Int :=
  (parseYMD s).map (fun t => (dayNumber t.1 t.2.1 t.2.2 : Int) * 86400000)

/-- The inclusive interval-overlap test of the assignment route:
`newStart <= existingEnd && newEnd >= existingStart` on `new Date` values;
any invalid date makes the comparison false (NaN semantics). -/
def datesOverlap (newStart newEnd existingStart existingEnd : String) : Bool :=
  match jsTime newStart, jsTime newEnd, jsTime existingStart, jsTime existingEnd with
  | some ns, some ne, some es, some ee => decide (ns ≤ ee ∧ ne ≥ es)
  | _, _, _, _ => false

/-! ## Database rows -/

structure ContractorRow where
  id : Nat
  full_name : String
  email : String
  company_name : String
  phone : String
  code : Option String
deriving DecidableEq

structure LandlordRow where
  id : Nat
  full_name : String
  email : String
  contact_number : String
deriving DecidableEq

structure BookingDateRow where
  id : Nat
  booking_request_id : Nat
  start_date : String
  end_date : String
  status : String
deriving DecidableEq

structure BookedPropertyRow where
  booking_id : Nat
  contractor_id : Option Nat
  booking_request_id : Option Nat
  property_id : Nat
  landlord_id : Option Nat
  start_date : String
  end_date : String
  project_postcode : Option String
  team_size : Option Nat
  contractor_name : Option String
  contractor_email : Option String
  contractor_phone : Option String
  property_name : Option String
  property_type : Option String
  property_address : Option String
  landlord_name : Option String
  landlord_contact : Option String
  value : Option String
  status : String
deriving DecidableEq

structure PropertyRow where
  id : Nat
  price : Int
  is_available : Bool
deriving DecidableEq

structure BookingRow where
  id : Nat
  property_id : Nat
  start_date : String
  end_date : String
  status : String
  updated_at : Option String
deriving DecidableEq

structure InvoiceRow where
  booking_id : Nat
  stripe_session_id : Nat
  stripe_payment_url : String
  amount : Option Int
  status : String
  updated_at : Option String
deriving DecidableEq

structure BookingRequestRow where
  id : Nat
  user_id : Nat
  full_name : String
  company_name : String
  email : String
  status : String
deriving DecidableEq

/-- The persistence collaborator: every table the core routes touch. -/
structure DB where
  contractor : List ContractorRow
  landlord : List LandlordRow
  booking_dates : List BookingDateRow
  booked_properties : List BookedPropertyRow
  properties : List PropertyRow
  bookings : List BookingRow
  invoices : List InvoiceRow
  booking_requests : List BookingRequestRow
deriving DecidableEq

/-- PostgREST `.single()` / `.maybeSingle()`: `data` is the row when the query
matches exactly one row, and null otherwise (zero rows: null data; more than
one row: an error object with null data, ignored by the handlers). -/
def singleQ {α : Type} (l : List α) : Option α :=
  match l with
  | [x] => some x
  | _ => none

/-! ## POST /api/property-assignment -/

/-- The request body.  A `none` field models a missing (or JS-falsy) value. -/
structure AssignReq where
  booking_date_id : Option Nat
  property_id : Option Nat
  start_date : Option String
  end_date : Option String
  postcode : Option String
  contractor_name : Option String
  contractor_email : Option String
  contractor_phone : Option String
  team_size : Option Nat
  property_name : Option String
  property_type : Option String
  property_address : Option String
  landlord_name : Option String
  landlord_contact : Option String
  value : Option String

inductive AssignResp
  | missingFields
  | bookingAlreadyExists
  | dateConflict (conflictStart conflictEnd : String)
  | insertFailed
  | created (row : BookedPropertyRow)
deriving DecidableEq

def AssignResp.httpStatus : AssignResp → Nat
  | .missingFields => 400
  | .bookingAlreadyExists => 409
  | .dateConflict _ _ => 409
  | .insertFailed => 500
  | .created _ => 201

def AssignResp.errorCode : AssignResp → Option String
  | .bookingAlreadyExists => some "BOOKING_ALREADY_EXISTS"
  | .dateConflict _ _ => some "DATE_CONFLICT"
  | _ => none

/-- Which of the route's Supabase write calls fail (external outcomes). -/
structure AssignOracle where
  insertFails : Bool
  propertyUpdateFails : Bool
  bookingDateUpdateFails : Bool

/-- The `POST /api/property-assignment` handler. -/
def propertyAssignment (req : AssignReq) (db : DB) (o : AssignOracle) :
    AssignResp × DB :=
  match req.booking_date_id, req.property_id, req.start_date, req.end_date with
  | some bdi, some pid, some sd, some ed =>
    let contractorId : Option Nat :=
      match req.contractor_name, req.contractor_email with
      | some n, some e =>
        (singleQ (db.contractor.filter
          (fun c => c.full_name == n && c.email == e))).map (fun c => c.id)
      | _, _ => none
    let landlordId : Option Nat :=
      match req.landlord_name, req.landlord_contact with
      | some n, some lc =>
        (singleQ (db.landlord.filter (fun l =>
          l.full_name == n &&
            (if lc.contains '@' then l.email == lc
             else l.contact_number == lc)))).map (fun l => l.id)
      | _, _ => none
    let bookingRequestId : Option Nat :=
      (singleQ (db.booking_dates.filter (fun b => b.id == bdi))).map
        (fun b => b.booking_request_id)
    let existingBooking :=
      singleQ (db.booked_properties.filter (fun b => b.booking_id == bdi))
    if existingBooking.isSome then
      (.bookingAlreadyExists, db)
    else
      let existingBookings :=
        db.booked_properties.filter (fun b => b.property_id == pid)
      match existingBookings.find?
          (fun b => datesOverlap sd ed b.start_date b.end_date) with
      | some conflict =>
        (.dateConflict conflict.start_date conflict.end_date, db)
      | none =>
        let row : BookedPropertyRow :=
          { booking_id := bdi
            contractor_id := contractorId
            booking_request_id := bookingRequestId
            property_id := pid
            landlord_id := landlordId
            start_date := sd
            end_date := ed
            project_postcode := req.postcode
            team_size := req.team_size
            contractor_name := req.contractor_name
            contractor_email := req.contractor_email
            contractor_phone := req.contractor_phone
            property_name := req.property_name
            property_type := req.property_type
            property_address := req.property_address
            landlord_name := req.landlord_name
            landlord_contact := req.landlord_contact
            value := req.value
            status := "active" }
        if o.insertFails then (.insertFailed, db)
        else
          let db1 := { db with booked_properties := db.booked_properties ++ [row] }
          let db2 :=
            if o.propertyUpdateFails then db1
            else { db1 with properties := db1.properties.map (fun p =>
              if p.id == pid then { p with is_available := false } else p) }
          let db3 :=
            if o.bookingDateUpdateFails then db2
            else { db2 with booking_dates := db2.booking_dates.map (fun b =>
              if b.id == bdi then { b with status := "confirmed" } else b) }
          (.created row, db3)
  | _, _, _, _ => (.missingFields, db)

/-! ## POST /api/stripe/create-session -/

/-- `⌈a / b⌉` for integers with `b > 0`, i.e. `Math.ceil` of the exact
quotient, as in the route's day count `Math.ceil((end - start) / 86400000)`. -/
def ceilDivInt (a b : Int) : Int :=
  Int.fdiv (a + b - 1) b

/-- The request body after zod validation: `none` models a body whose
`booking_id` fails the uuid-format validation. -/
structure CreateSessionReq where
  booking_id : Option Nat

/-- The session object returned by the payment processor for this call. -/
structure NewSession where
  id : Nat
  url : String

/-- External outcomes of the route's collaborator calls. -/
structure SessionOracle where
  sessionCreateFails : Bool
  invoiceInsertFails : Bool

inductive CreateSessionResp
  | validationError
  | bookingNotFound
  | propertyJoinError
  | sessionFailed
  | invoiceFailed
  | ok (session_id : Nat) (payment_url : String) (amountCharged : Option Int)
      (invoice : InvoiceRow)
deriving DecidableEq

def CreateSessionResp.httpStatus : CreateSessionResp → Nat
  | .validationError => 400
  | .bookingNotFound => 404
  | .propertyJoinError => 500
  | .sessionFailed => 500
  | .invoiceFailed => 500
  | .ok _ _ _ _ => 200

/-- The `POST /api/stripe/create-session` handler.  `amountCharged` is the
amount handed to the payment processor when the session is opened; a `none`
amount models the `NaN` produced by an unparseable booking date.  A booking
whose joined property row is absent makes `booking.property.price` throw,
landing in the catch-all 500. -/
def createSession (req : CreateSessionReq) (db : DB) (sess : NewSession)
    (o : SessionOracle) : CreateSessionResp × DB :=
  match req.booking_id with
  | none => (.validationError, db)
  | some bid =>
    match singleQ (db.bookings.filter (fun b => b.id == bid)) with
    | none => (.bookingNotFound, db)
    | some booking =>
      match db.properties.find? (fun p => p.id == booking.property_id) with
      | none => (.propertyJoinError, db)
      | some property =>
        let totalAmount : Option Int :=
          match jsTime booking.start_date, jsTime booking.end_date with
          | some s, some e => some (property.price * ceilDivInt (e - s) 86400000)
          | _, _ => none
        if o.sessionCreateFails then (.sessionFailed, db)
        else if o.invoiceInsertFails then (.invoiceFailed, db)
        else
          let invoice : InvoiceRow :=
            { booking_id := booking.id
              stripe_session_id := sess.id
              stripe_payment_url := sess.url
              amount := totalAmount
              status := "unpaid"
              updated_at := none }
          (.ok sess.id sess.url totalAmount invoice,
            { db with invoices := db.invoices ++ [invoice] })

/-! ## POST /api/stripe/webhook -/

inductive StripeEventType
  | checkoutSessionCompleted
  | checkoutSessionExpired
  | other (name : String)
deriving DecidableEq

/-- `event.data.object` of a checkout-session event. -/
structure StripeSessionObj where
  id : Nat
  metadataBookingId : Option Nat
  amount_total : Option Int
  payment_status : String
deriving DecidableEq

structure StripeEvent where
  type : StripeEventType
  session : StripeSessionObj
deriving DecidableEq

inductive WebhookResp
  | missingSignature
  | verificationFailed
  | missingBookingId
  | invoiceUpdateFailed
  | bookingUpdateFailed
  | received
deriving DecidableEq

def WebhookResp.httpStatus : WebhookResp → Nat
  | .missingSignature => 400
  | .verificationFailed => 400
  | .missingBookingId => 400
  | .invoiceUpdateFailed => 500
  | .bookingUpdateFailed => 500
  | .received => 200

structure WebhookOracle where
  invoiceUpdateFails : Bool
  bookingUpdateFails : Bool

structure WebhookResult where
  resp : WebhookResp
  db : DB
  notificationsSent : List String
deriving DecidableEq

/-- The `POST /api/stripe/webhook` handler.  `signature` is the
`stripe-signature` header; `verified` is the outcome of
`constructWebhookEvent` on the raw body and that header (`none` models the
throw on a signature that fails verification against the shared webhook
secret, caught by the route's catch and turned into a 400).
`notificationsSent` lists the outbound CRM events fired by this call
(`sendWebhookEvent` swallows its own failures, so it never affects the
response).  `now` is the clock value written into `updated_at`. -/
def stripeWebhook (signature : Option String) (verified : Option StripeEvent)
    (db : DB) (o : WebhookOracle) (now : String) : WebhookResult :=
  match signature with
  | none => ⟨.missingSignature, db, []⟩
  | some _ =>
    match verified with
    | none => ⟨.verificationFailed, db, []⟩
    | some event =>
      match event.type with
      | .checkoutSessionCompleted =>
        match event.session.metadataBookingId with
        | none => ⟨.missingBookingId, db, []⟩
        | some bookingId =>
          if o.invoiceUpdateFails then ⟨.invoiceUpdateFailed, db, []⟩
          else
            let db1 := { db with invoices := db.invoices.map (fun i =>
              if i.stripe_session_id == event.session.id then
                { i with status := "paid", updated_at := some now }
              else i) }
            if o.bookingUpdateFails then ⟨.bookingUpdateFailed, db1, []⟩
            else
              let db2 := { db1 with bookings := db1.bookings.map (fun b =>
                if b.id == bookingId then
                  { b with status := "paid", updated_at := some now }
                else b) }
              ⟨.received, db2, ["payment_succeeded"]⟩
      | .checkoutSessionExpired =>
        match event.session.metadataBookingId with
        | some _ => ⟨.received, db, ["payment_expired"]⟩
        | none => ⟨.received, db, []⟩
      | .other _ => ⟨.received, db, []⟩

/-! ## POST /api/booking-requests -/

structure BookingPair where
  startDate : String
  endDate : String
deriving DecidableEq

/-- The intake body after zod validation. -/
structure IntakeBody where
  fullName : String
  companyName : String
  email : String
  phone : String
  projectPostcode : Option String
  password : String
  bookings : List BookingPair
  teamSize : Option Nat
  budgetPerPerson : Option String
  city : Option String

/-- External outcomes: which collaborator calls fail, and the fresh ids the
collaborators mint (auth user id, booking-request id, booking-date ids). -/
structure IntakeOracle where
  authFails : Bool
  authUserId : Nat
  contractorInsertFails : Bool
  newRequestId : Nat
  requestInsertFails : Bool
  datesInsertFails : Bool
  dateIdBase : Nat

inductive IntakeResp
  | validationError
  | authFailed
  | contractorFailed
  | requestFailed
  | datesFailed
  | invalidDateRange (startDate endDate : String)
  | created
deriving DecidableEq

/-- The `endDate <= startDate` guard: the route throws a plain `Error` when
`new Date(startDate) >= new Date(endDate)`; NaN comparisons are false, so
pairs with unparseable dates pass the guard. -/
def jsDateGE (s e : String) : Bool :=
  match jsTime s, jsTime e with
  | some a, some b => decide (a ≥ b)
  | _, _ => false

/-- HTTP status of each intake outcome.  The thrown invalid-date-range
`Error` is not a `ZodError`, so the route's catch handler maps it to the
generic 500 internal-server-error response. -/
def IntakeResp.httpStatus : IntakeResp → Nat
  | .validationError => 400
  | .authFailed => 400
  | .contractorFailed => 500
  | .requestFailed => 500
  | .datesFailed => 500
  | .invalidDateRange _ _ => 500
  | .created => 201

/-- First digit-run value after an occurrence of `CT-`, scanning left to
right: the `/CT-(\d+)/` match of the contractor-code generator. -/
def leadingDigits : List Char → List Char
  | [] => []
  | c :: rest => if (digitVal c).isSome then c :: leadingDigits rest else []

def ctMatch : List Char → Option Nat
  | [] => none
  | c :: rest =>
    if c = 'C' then
      match rest with
      | 'T' :: '-' :: tail =>
        let ds := leadingDigits tail
        if ds.isEmpty then ctMatch rest else parseNatDigits ds
      | _ => ctMatch rest
    else ctMatch rest

/-- Contractor-code generation: max of the existing `CT-n` numbers plus one,
starting at 1. -/
def nextContractorCode (contractors : List ContractorRow) : String :=
  let nums := ((contractors.filterMap (fun c => c.code)).map
    (fun s => (ctMatch s.toList).getD 0)).filter (fun n => n > 0)
  let nextNumber := if nums.isEmpty then 1 else nums.foldl Nat.max 0 + 1
  "CT-" ++ toString nextNumber

/-- The `POST /api/booking-requests` handler.  `body = none` models a body
rejected by the zod schema.  Step 5 filters out pairs with a falsy (empty)
date string, then throws on the first remaining pair whose dates satisfy
`startDate >= endDate`; the throw happens before any `booking_dates` insert,
but after the contractor and booking-request rows were committed. -/
def bookingRequestsPost (body : Option IntakeBody) (db : DB) (o : IntakeOracle) :
    IntakeResp × DB :=
  match body with
  | none => (.validationError, db)
  | some v =>
    if o.authFails then (.authFailed, db)
    else
      let contractorCode := nextContractorCode db.contractor
      if o.contractorInsertFails then (.contractorFailed, db)
      else
        let newContractor : ContractorRow :=
          { id := o.authUserId
            full_name := v.fullName
            email := v.email
            company_name := v.companyName
            phone := v.phone
            code := some contractorCode }
        let db1 := { db with contractor := db.contractor ++ [newContractor] }
        if o.requestInsertFails then (.requestFailed, db1)
        else
          let reqRow : BookingRequestRow :=
            { id := o.newRequestId
              user_id := o.authUserId
              full_name := v.fullName
              company_name := v.companyName
              email := v.email
              status := "pending" }
          let db2 := { db1 with booking_requests := db1.booking_requests ++ [reqRow] }
          let filtered := v.bookings.filter
            (fun b => b.startDate != "" && b.endDate != "")
          match filtered.find? (fun b => jsDateGE b.startDate b.endDate) with
          | some bad => (.invalidDateRange bad.startDate bad.endDate, db2)
          | none =>
            if filtered.isEmpty then (.created, db2)
            else if o.datesInsertFails then (.datesFailed, db2)
            else
              let rows := filtered.enum.map (fun p =>
                ({ id := o.dateIdBase + p.1
                   booking_request_id := o.newRequestId
                   start_date := p.2.startDate
                   end_date := p.2.endDate
                   status := "pending" } : BookingDateRow))
              (.created, { db2 with booking_dates := db2.booking_dates ++ rows })

/-! ## Concrete fixtures

Small concrete states and requests used to evaluate the handlers on the
scenarios of the specification. -/

def emptyDB : DB := ⟨[], [], [], [], [], [], [], []⟩

/-- An existing Assignment of property 1 for `[2024-01-10, 2024-01-15]`,
referencing RequestedDateRange 10. -/
def januaryAssignment : BookedPropertyRow :=
  { booking_id := 10, contractor_id := none, booking_request_id := none,
    property_id := 1, landlord_id := none,
    start_date := "2024-01-10", end_date := "2024-01-15",
    project_postcode := none, team_size := none, contractor_name := none,
    contractor_email := none, contractor_phone := none, property_name := none,
    property_type := none, property_address := none, landlord_name := none,
    landlord_contact := none, value := none, status := "active" }

def conflictDB : DB := { emptyDB with booked_properties := [januaryAssignment] }

/-- A request for property 1 over `[2024-01-14, 2024-01-20]`, for a fresh
RequestedDateRange 11. -/
def overlapReq : AssignReq :=
  { booking_date_id := some 11, property_id := some 1,
    start_date := some "2024-01-14", end_date := some "2024-01-20",
    postcode := none, contractor_name := none, contractor_email := none,
    contractor_phone := none, team_size := none, property_name := none,
    property_type := none, property_address := none, landlord_name := none,
    landlord_contact := none, value := none }

/-- The same request, but for RequestedDateRange 10, which already has an
Assignment (and whose interval also overlaps it, so the response shows which
check fires first). -/
def reassignReq : AssignReq := { overlapReq with booking_date_id := some 10 }

/-- A conflict-free request: RequestedDateRange 12, property 3. -/
def freshAssignReq : AssignReq :=
  { overlapReq with
      booking_date_id := some 12
      property_id := some 3
      start_date := some "2024-02-01"
      end_date := some "2024-02-05" }

/-- A request naming a RequestedDateRange (99) absent from `booking_dates`. -/
def missingDateReq : AssignReq :=
  { overlapReq with
      booking_date_id := some 99
      property_id := some 5
      start_date := some "2024-06-01"
      end_date := some "2024-06-03" }

def allOkAssign : AssignOracle := ⟨false, false, false⟩

/-- Insert succeeds, both trailing best-effort updates fail. -/
def failTrailingAssign : AssignOracle := ⟨false, true, true⟩

/-- Booking 7 on property 1, spanning 2024-03-01 to 2024-03-10 (9 days). -/
def marchBooking : BookingRow := ⟨7, 1, "2024-03-01", "2024-03-10", "pending", none⟩

def fiftyProperty : PropertyRow := ⟨1, 50, true⟩

def stripeDB : DB := { emptyDB with bookings := [marchBooking], properties := [fiftyProperty] }

def sessionA : NewSession := ⟨100, "https://pay.example/a"⟩

def sessionB : NewSession := ⟨101, "https://pay.example/b"⟩

def sessionOk : SessionOracle := ⟨false, false⟩

def csReq : CreateSessionReq := ⟨some 7⟩

/-- The state after a first successful create-session call for booking 7. -/
def dupDB : DB := (createSession csReq stripeDB sessionA sessionOk).2

/-- A verified `checkout.session.completed` event for session 100, whose
metadata names booking 7. -/
def completedEvent : StripeEvent :=
  ⟨.checkoutSessionCompleted, ⟨100, some 7, some 45000, "paid"⟩⟩

/-- A verified `checkout.session.completed` event with no booking id in its
metadata. -/
def noMetaEvent : StripeEvent :=
  ⟨.checkoutSessionCompleted, ⟨100, none, none, "paid"⟩⟩

def unpaidInvoice : InvoiceRow := ⟨7, 100, "https://pay.example/a", some 450, "unpaid", none⟩

def webhookDB : DB := { stripeDB with invoices := [unpaidInvoice] }

/-- First application of the completed callback. -/
def webhookRun1 : WebhookResult :=
  stripeWebhook (some "sig") (some completedEvent) webhookDB ⟨false, false⟩ "t1"

/-- Replay of the same callback on the resulting state. -/
def webhookRun2 : WebhookResult :=
  stripeWebhook (some "sig") (some completedEvent) webhookRun1.db ⟨false, false⟩ "t2"

/-- An intake body whose single date pair has `endDate <= startDate`. -/
def intakeBodyBad : IntakeBody :=
  { fullName := "A contractor", companyName := "A company", email := "a@b.example",
    phone := "0123", projectPostcode := none, password := "secret",
    bookings := [⟨"2024-03-10", "2024-03-01"⟩],
    teamSize := none, budgetPerPerson := none, city := none }

def intakeOk : IntakeOracle := ⟨false, 1, false, 2, false, false, 3⟩

/-! ## Theorems -/

/-- C1: a property-assignment request whose interval overlaps (inclusively,
`newStart <= existingEnd AND newEnd >= existingStart`) an existing Assignment
of the same Property — and whose RequestedDateRange does not already have an
Assignment of its own — is rejected with HTTP 409 and code `DATE_CONFLICT`,
no Assignment row is inserted (the state is returned unchanged), and the
response carries a conflicting stored interval's `start_date` and `end_date`
strings literally as stored. -/
theorem assignment_overlap_rejected
    (req : AssignReq) (db : DB) (o : AssignOracle) (bdi pid : Nat) (sd ed : String)
    (hb : req.booking_date_id = some bdi) (hp : req.property_id = some pid)
    (hs : req.start_date = some sd) (he : req.end_date = some ed)
    (hnoexist : singleQ (db.booked_properties.filter (fun b => b.booking_id == bdi)) = none)
    (hconf : ∃ b ∈ db.booked_properties, b.property_id = pid ∧
      datesOverlap sd ed b.start_date b.end_date = true) :
    ∃ c ∈ db.booked_properties, c.property_id = pid ∧
      datesOverlap sd ed c.start_date c.end_date = true ∧
      propertyAssignment req db o = (AssignResp.dateConflict c.start_date c.end_date, db) ∧
      (AssignResp.dateConflict c.start_date c.end_date).httpStatus = 409 ∧
      (AssignResp.dateConflict c.start_date c.end_date).errorCode = some "DATE_CONFLICT" := by
  obtain ⟨b, hbmem, hbpid, hbov⟩ := hconf
  have hmemf : b ∈ db.booked_properties.filter (fun x => x.property_id == pid) :=
    List.mem_filter.mpr ⟨hbmem, by simp [hbpid]⟩
  have hsome : ((db.booked_properties.filter (fun x => x.property_id == pid)).find?
      (fun x => datesOverlap sd ed x.start_date x.end_date)).isSome := by
    rw [List.find?_isSome]
    exact ⟨b, hmemf, hbov⟩
  obtain ⟨c, hc⟩ := Option.isSome_iff_exists.mp hsome
  have hcov0 := List.find?_some hc
  have hcov : datesOverlap sd ed c.start_date c.end_date = true := by simpa using hcov0
  have hcmemf : c ∈ db.booked_properties.filter (fun x => x.property_id == pid) :=
    List.mem_of_find?_eq_some hc
  obtain ⟨hcmem, hcpid⟩ := List.mem_filter.mp hcmemf
  refine ⟨c, hcmem, by simpa using hcpid, hcov, ?_, rfl, rfl⟩
  obtain ⟨f1, f2, f3, f4, f5, f6, f7, f8, f9, f10, f11, f12, f13, f14, f15⟩ := req
  simp only at hb hp hs he
  subst hb hp hs he
  simp only [propertyAssignment, hnoexist, Option.isSome_none, Bool.false_eq_true,
    if_false, hc]

/-- C1 witness: with an existing Assignment of property 1 for
`[2024-01-10, 2024-01-15]`, a request for `[2024-01-14, 2024-01-20]` on the
same property is rejected as `DATE_CONFLICT` reporting exactly
`2024-01-10` to `2024-01-15`, and the state is unchanged. -/
theorem assignment_overlap_rejected_witness :
    (overlapReq.booking_date_id = some 11 ∧ overlapReq.property_id = some 1 ∧
     overlapReq.start_date = some "2024-01-14" ∧ overlapReq.end_date = some "2024-01-20" ∧
     singleQ (conflictDB.booked_properties.filter (fun b => b.booking_id == 11)) = none ∧
     (∃ b ∈ conflictDB.booked_properties, b.property_id = 1 ∧
       datesOverlap "2024-01-14" "2024-01-20" b.start_date b.end_date = true)) ∧
    (∃ c ∈ conflictDB.booked_properties, c.property_id = 1 ∧
      datesOverlap "2024-01-14" "2024-01-20" c.start_date c.end_date = true ∧
      propertyAssignment overlapReq conflictDB allOkAssign =
        (AssignResp.dateConflict c.start_date c.end_date, conflictDB) ∧
      (AssignResp.dateConflict c.start_date c.end_date).httpStatus = 409 ∧
      (AssignResp.dateConflict c.start_date c.end_date).errorCode = some "DATE_CONFLICT") ∧
    propertyAssignment overlapReq conflictDB allOkAssign =
      (AssignResp.dateConflict "2024-01-10" "2024-01-15", conflictDB) :=
  ⟨⟨rfl, rfl, rfl, rfl, by decide, by decide⟩,
   assignment_overlap_rejected overlapReq conflictDB allOkAssign 11 1
     "2024-01-14" "2024-01-20" rfl rfl rfl rfl (by decide) (by decide),
   by decide⟩

/-- C2: a property-assignment request naming a RequestedDateRange that
already has an Assignment (exactly one row of `booked_properties` references
it, as the no-double-assignment invariant guarantees) is rejected with HTTP
409 and code `BOOKING_ALREADY_EXISTS` — regardless of the target Property and
the requested interval, which are universally quantified here — with no new
Assignment row inserted.  No hypothesis about interval overlaps is needed:
the existence check fires before the date-overlap check. -/
theorem assignment_reassignment_rejected
    (req : AssignReq) (db : DB) (o : AssignOracle) (bdi pid : Nat) (sd ed : String)
    (existing : BookedPropertyRow)
    (hb : req.booking_date_id = some bdi) (hp : req.property_id = some pid)
    (hs : req.start_date = some sd) (he : req.end_date = some ed)
    (hexist : db.booked_properties.filter (fun b => b.booking_id == bdi) = [existing]) :
    propertyAssignment req db o = (AssignResp.bookingAlreadyExists, db) ∧
    AssignResp.bookingAlreadyExists.httpStatus = 409 ∧
    AssignResp.bookingAlreadyExists.errorCode = some "BOOKING_ALREADY_EXISTS" := by
  obtain ⟨f1, f2, f3, f4, f5, f6, f7, f8, f9, f10, f11, f12, f13, f14, f15⟩ := req
  simp only at hb hp hs he
  subst hb hp hs he
  refine ⟨?_, rfl, rfl⟩
  simp only [propertyAssignment, hexist, singleQ, Option.isSome_some, if_true]

/-- C2 witness: RequestedDateRange 10 already has the January Assignment;
re-assigning it — even to the same property with an overlapping interval —
answers `BOOKING_ALREADY_EXISTS`, not `DATE_CONFLICT`. -/
theorem assignment_reassignment_rejected_witness :
    (reassignReq.booking_date_id = some 10 ∧ reassignReq.property_id = some 1 ∧
     reassignReq.start_date = some "2024-01-14" ∧ reassignReq.end_date = some "2024-01-20" ∧
     conflictDB.booked_properties.filter (fun b => b.booking_id == 10) = [januaryAssignment]) ∧
    (propertyAssignment reassignReq conflictDB allOkAssign =
      (AssignResp.bookingAlreadyExists, conflictDB) ∧
     AssignResp.bookingAlreadyExists.httpStatus = 409 ∧
     AssignResp.bookingAlreadyExists.errorCode = some "BOOKING_ALREADY_EXISTS") :=
  ⟨⟨rfl, rfl, rfl, rfl, by decide⟩,
   assignment_reassignment_rejected reassignReq conflictDB allOkAssign 10 1
     "2024-01-14" "2024-01-20" januaryAssignment rfl rfl rfl rfl (by decide)⟩

/-- After the blind `status = paid` update keyed on a session id, every
invoice carrying that session id has status `paid`. -/
theorem paid_after_invoice_mark (l : List InvoiceRow) (sid : Nat) (now : String) :
    ∀ i ∈ l.map (fun i => if i.stripe_session_id == sid then
        { i with status := "paid", updated_at := some now } else i),
      i.stripe_session_id = sid → i.status = "paid" := by
  intro i hi hs
  obtain ⟨a, ha, rfl⟩ := List.mem_map.mp hi
  by_cases h : a.stripe_session_id = sid
  · simp [h]
  · simp [h] at hs ⊢

/-- After the blind `status = paid` update keyed on a booking id, every
booking carrying that id has status `paid`. -/
theorem paid_after_booking_mark (l : List BookingRow) (bid : Nat) (now : String) :
    ∀ b ∈ l.map (fun b => if b.id == bid then
        { b with status := "paid", updated_at := some now } else b),
      b.id = bid → b.status = "paid" := by
  intro b hb hs
  obtain ⟨a, ha, rfl⟩ := List.mem_map.mp hb
  by_cases h : a.id = bid
  · simp [h]
  · simp [h] at hs ⊢

/-- C3: applying the verified `checkout.session.completed` callback twice
with the same session id leaves every Invoice matching that session id and
every Booking named in the session metadata with status `paid` after each
application, answers 200 both times (no error on the replay: the update is a
blind `status = paid` set), and fires exactly one outbound notification per
call. -/
theorem webhook_completed_idempotent
    (sig now1 now2 : String) (ev : StripeEvent) (db : DB) (bid : Nat)
    (r1 r2 : WebhookResult)
    (htype : ev.type = StripeEventType.checkoutSessionCompleted)
    (hmeta : ev.session.metadataBookingId = some bid)
    (h1 : stripeWebhook (some sig) (some ev) db ⟨false, false⟩ now1 = r1)
    (h2 : stripeWebhook (some sig) (some ev) r1.db ⟨false, false⟩ now2 = r2) :
    r1.resp = WebhookResp.received ∧ r2.resp = WebhookResp.received ∧
    r1.resp.httpStatus = 200 ∧ r2.resp.httpStatus = 200 ∧
    (∀ i ∈ r1.db.invoices, i.stripe_session_id = ev.session.id → i.status = "paid") ∧
    (∀ i ∈ r2.db.invoices, i.stripe_session_id = ev.session.id → i.status = "paid") ∧
    (∀ b ∈ r1.db.bookings, b.id = bid → b.status = "paid") ∧
    (∀ b ∈ r2.db.bookings, b.id = bid → b.status = "paid") ∧
    r1.notificationsSent = ["payment_succeeded"] ∧
    r2.notificationsSent = ["payment_succeeded"] := by
  obtain ⟨ty, sid, mbid, amt, ps⟩ := ev
  simp only at htype hmeta
  subst htype hmeta
  subst h1 h2
  simp only [stripeWebhook]
  refine ⟨rfl, rfl, rfl, rfl, ?_, ?_, ?_, ?_, rfl, rfl⟩
  · exact paid_after_invoice_mark db.invoices sid now1
  · exact paid_after_invoice_mark _ sid now2
  · exact paid_after_booking_mark db.bookings bid now1
  · exact paid_after_booking_mark _ bid now2

/-- C3 witness: the completed callback for session 100 / booking 7, applied
twice on a state holding the matching unpaid invoice and pending booking. -/
theorem webhook_completed_idempotent_witness :
    (completedEvent.type = StripeEventType.checkoutSessionCompleted ∧
     completedEvent.session.metadataBookingId = some 7) ∧
    (webhookRun1.resp = WebhookResp.received ∧ webhookRun2.resp = WebhookResp.received ∧
     webhookRun1.resp.httpStatus = 200 ∧ webhookRun2.resp.httpStatus = 200 ∧
     (∀ i ∈ webhookRun1.db.invoices,
        i.stripe_session_id = completedEvent.session.id → i.status = "paid") ∧
     (∀ i ∈ webhookRun2.db.invoices,
        i.stripe_session_id = completedEvent.session.id → i.status = "paid") ∧
     (∀ b ∈ webhookRun1.db.bookings, b.id = 7 → b.status = "paid") ∧
     (∀ b ∈ webhookRun2.db.bookings, b.id = 7 → b.status = "paid") ∧
     webhookRun1.notificationsSent = ["payment_succeeded"] ∧
     webhookRun2.notificationsSent = ["payment_succeeded"]) :=
  ⟨⟨rfl, rfl⟩,
   webhook_completed_idempotent "sig" "t1" "t2" completedEvent webhookDB 7
     webhookRun1 webhookRun2 rfl rfl rfl rfl⟩

/-- C4: a webhook request whose `stripe-signature` header is missing, or
whose signature fails verification against the shared webhook secret (the
verifier yields no event), is answered with HTTP 400, mutates no Invoice or
Booking row (the whole state is returned unchanged), and fires no outbound
notification. -/
theorem webhook_bad_signature_rejected
    (signature : Option String) (verified : Option StripeEvent) (db : DB)
    (o : WebhookOracle) (now : String)
    (h : signature = none ∨ verified = none) :
    (stripeWebhook signature verified db o now).resp.httpStatus = 400 ∧
    (stripeWebhook signature verified db o now).db = db ∧
    (stripeWebhook signature verified db o now).notificationsSent = [] := by
  rcases h with h | h
  · subst h
    exact ⟨rfl, rfl, rfl⟩
  · subst h
    cases signature <;> exact ⟨rfl, rfl, rfl⟩

/-- C4 witness: a request with no signature header, against a state holding
an unpaid invoice, is rejected with 400 and the state is unchanged. -/
theorem webhook_bad_signature_rejected_witness :
    ((none : Option String) = none ∨ (some completedEvent : Option StripeEvent) = none) ∧
    ((stripeWebhook none (some completedEvent) webhookDB ⟨false, false⟩ "t").resp.httpStatus = 400 ∧
     (stripeWebhook none (some completedEvent) webhookDB ⟨false, false⟩ "t").db = webhookDB ∧
     (stripeWebhook none (some completedEvent) webhookDB ⟨false, false⟩ "t").notificationsSent = []) :=
  ⟨Or.inl rfl,
   webhook_bad_signature_rejected none (some completedEvent) webhookDB
     ⟨false, false⟩ "t" (Or.inl rfl)⟩

/-- C5 counterexample: a webhook request whose signature verifies
successfully does NOT always get HTTP 200 — a verified
`checkout.session.completed` event with no booking id in its session
metadata is answered with 400. -/
theorem webhook_verified_not_always_200 :
    (stripeWebhook (some "sig") (some noMetaEvent) webhookDB ⟨false, false⟩ "t").resp.httpStatus = 400 ∧
    ¬ (stripeWebhook (some "sig") (some noMetaEvent) webhookDB ⟨false, false⟩ "t").resp.httpStatus = 200 := by
  decide

/-- C5 (amended): a verified webhook request whose event type is
unrecognized is accepted with HTTP 200 (`received: true`), ignored without
any state mutation, and fires no notification; verified requests with a
recognized event type may instead be answered 400 (missing metadata) or 500
(persistence failure). -/
theorem webhook_unrecognized_event_accepted
    (sig name now : String) (sess : StripeSessionObj) (db : DB) (o : WebhookOracle) :
    stripeWebhook (some sig) (some ⟨StripeEventType.other name, sess⟩) db o now =
      ⟨WebhookResp.received, db, []⟩ ∧
    WebhookResp.received.httpStatus = 200 :=
  ⟨rfl, rfl⟩

/-- C6 counterexample: an intake payload whose date pair is
`[2024-03-10, 2024-03-01]` (endDate <= startDate) is rejected with HTTP 500
— not 400: the thrown range error is a plain `Error`, which the catch
handler maps to the generic internal-server-error response — while still
persisting no `booking_dates` row. -/
theorem booking_requests_bad_range_counterexample :
    (bookingRequestsPost (some intakeBodyBad) emptyDB intakeOk).1.httpStatus = 500 ∧
    ¬ (bookingRequestsPost (some intakeBodyBad) emptyDB intakeOk).1.httpStatus = 400 ∧
    (bookingRequestsPost (some intakeBodyBad) emptyDB intakeOk).2.booking_dates = [] := by
  decide

/-- C6 (amended): an intake payload containing a date pair (with non-empty
dates) satisfying `endDate <= startDate` is rejected wholesale — though with
HTTP 500 from the generic error handler rather than 400 — and no
`booking_dates` row is persisted for any pair of the batch. -/
theorem booking_requests_bad_range_rejected
    (v : IntakeBody) (db : DB) (o : IntakeOracle)
    (ha : o.authFails = false) (hc : o.contractorInsertFails = false)
    (hr : o.requestInsertFails = false)
    (hbad : ∃ b ∈ v.bookings, b.startDate ≠ "" ∧ b.endDate ≠ "" ∧
      jsDateGE b.startDate b.endDate = true) :
    (bookingRequestsPost (some v) db o).1.httpStatus = 500 ∧
    (bookingRequestsPost (some v) db o).2.booking_dates = db.booking_dates := by
  obtain ⟨b, hbmem, hbs, hbe, hbge⟩ := hbad
  have hmemf : b ∈ v.bookings.filter (fun b => b.startDate != "" && b.endDate != "") :=
    List.mem_filter.mpr ⟨hbmem, by simp [hbs, hbe]⟩
  have hsome : ((v.bookings.filter (fun b => b.startDate != "" && b.endDate != "")).find?
      (fun b => jsDateGE b.startDate b.endDate)).isSome := by
    rw [List.find?_isSome]
    exact ⟨b, hmemf, hbge⟩
  obtain ⟨bad, hfind⟩ := Option.isSome_iff_exists.mp hsome
  obtain ⟨oa, oid, oc, orid, orf, odf, odb⟩ := o
  simp only at ha hc hr
  subst ha hc hr
  simp [bookingRequestsPost, hfind, IntakeResp.httpStatus]

/-- C6 witness: the amended statement evaluated on the concrete bad payload. -/
theorem booking_requests_bad_range_rejected_witness :
    (intakeOk.authFails = false ∧ intakeOk.contractorInsertFails = false ∧
     intakeOk.requestInsertFails = false ∧
     (∃ b ∈ intakeBodyBad.bookings, b.startDate ≠ "" ∧ b.endDate ≠ "" ∧
       jsDateGE b.startDate b.endDate = true)) ∧
    ((bookingRequestsPost (some intakeBodyBad) emptyDB intakeOk).1.httpStatus = 500 ∧
     (bookingRequestsPost (some intakeBodyBad) emptyDB intakeOk).2.booking_dates =
       emptyDB.booking_dates) :=
  ⟨⟨rfl, rfl, rfl, by decide⟩,
   booking_requests_bad_range_rejected intakeBodyBad emptyDB intakeOk
     rfl rfl rfl (by decide)⟩

/-- C7: `POST /stripe/create-session` computes
`amount = unit_price * ceil((end - start) / 1 day)` from the referenced
booking's property price and date span, hands that amount to the payment
session, and stores it on the created Invoice. -/
theorem create_session_amount_formula
    (req : CreateSessionReq) (db : DB) (sess : NewSession) (o : SessionOracle)
    (bid : Nat) (booking : BookingRow) (property : PropertyRow) (sMs eMs : Int)
    (hreq : req.booking_id = some bid)
    (hbk : singleQ (db.bookings.filter (fun b => b.id == bid)) = some booking)
    (hpr : db.properties.find? (fun p => p.id == booking.property_id) = some property)
    (hsd : jsTime booking.start_date = some sMs)
    (hed : jsTime booking.end_date = some eMs)
    (hoc : o.sessionCreateFails = false) (hoi : o.invoiceInsertFails = false) :
    ∃ inv : InvoiceRow,
      createSession req db sess o =
        (CreateSessionResp.ok sess.id sess.url
          (some (property.price * ceilDivInt (eMs - sMs) 86400000)) inv,
         { db with invoices := db.invoices ++ [inv] }) ∧
      inv.amount = some (property.price * ceilDivInt (eMs - sMs) 86400000) ∧
      inv.booking_id = booking.id := by
  obtain ⟨rb⟩ := req
  simp only at hreq
  subst hreq
  obtain ⟨oc, oi⟩ := o
  simp only at hoc hoi
  subst hoc hoi
  simp only [createSession, hbk, hpr, hsd, hed, Bool.false_eq_true, if_false]
  exact ⟨_, rfl, rfl, rfl⟩

/-- C7 witness: for a unit price of 50 and the 9-day span 2024-03-01 to
2024-03-10 the computed amount is 450 — on the session request, and stored
on the Invoice. -/
theorem create_session_amount_formula_witness :
    (csReq.booking_id = some 7 ∧
     singleQ (stripeDB.bookings.filter (fun b => b.id == 7)) = some marchBooking ∧
     stripeDB.properties.find? (fun p => p.id == marchBooking.property_id) = some fiftyProperty ∧
     jsTime marchBooking.start_date = some 1709251200000 ∧
     jsTime marchBooking.end_date = some 1710028800000 ∧
     sessionOk.sessionCreateFails = false ∧ sessionOk.invoiceInsertFails = false) ∧
    (∃ inv : InvoiceRow,
      createSession csReq stripeDB sessionA sessionOk =
        (CreateSessionResp.ok sessionA.id sessionA.url
          (some (fiftyProperty.price * ceilDivInt (1710028800000 - 1709251200000) 86400000)) inv,
         { stripeDB with invoices := stripeDB.invoices ++ [inv] }) ∧
      inv.amount = some (fiftyProperty.price * ceilDivInt (1710028800000 - 1709251200000) 86400000) ∧
      inv.booking_id = marchBooking.id) ∧
    (createSession csReq stripeDB sessionA sessionOk).1 =
      CreateSessionResp.ok 100 "https://pay.example/a" (some 450)
        ⟨7, 100, "https://pay.example/a", some 450, "unpaid", none⟩ :=
  ⟨⟨rfl, by decide, by decide, by decide, by decide, rfl, rfl⟩,
   create_session_amount_formula csReq stripeDB sessionA sessionOk 7
     marchBooking fiftyProperty 1709251200000 1710028800000
     rfl (by decide) (by decide) (by decide) (by decide) rfl rfl,
   by decide⟩

/-- C8: when a property-assignment request passes every precondition check
and the Assignment insert succeeds, the endpoint answers HTTP 201 with the
created Assignment even while the two trailing best-effort updates (the
Property availability flag, the RequestedDateRange status) are free to fail
— the oracle flags for them are universally quantified — and the inserted
row is present in the final state (never rolled back). -/
theorem assignment_success_despite_update_failures
    (req : AssignReq) (db : DB) (o : AssignOracle) (bdi pid : Nat) (sd ed : String)
    (hb : req.booking_date_id = some bdi) (hp : req.property_id = some pid)
    (hs : req.start_date = some sd) (he : req.end_date = some ed)
    (hnoexist : singleQ (db.booked_properties.filter (fun b => b.booking_id == bdi)) = none)
    (hnoconf : (db.booked_properties.filter (fun b => b.property_id == pid)).find?
        (fun b => datesOverlap sd ed b.start_date b.end_date) = none)
    (hins : o.insertFails = false) :
    (propertyAssignment req db o).1.httpStatus = 201 ∧
    ∃ row, (propertyAssignment req db o).1 = AssignResp.created row ∧
      row ∈ (propertyAssignment req db o).2.booked_properties := by
  obtain ⟨f1, f2, f3, f4, f5, f6, f7, f8, f9, f10, f11, f12, f13, f14, f15⟩ := req
  simp only at hb hp hs he
  subst hb hp hs he
  obtain ⟨oi, op, ob⟩ := o
  simp only at hins
  subst hins
  cases op <;> cases ob <;>
    · simp only [propertyAssignment, hnoexist, hnoconf, Option.isSome_none,
        Bool.false_eq_true, if_false]
      exact ⟨rfl, _, rfl, by simp⟩

/-- C8 witness: a conflict-free request whose two trailing updates both
fail still returns 201 with the Assignment row inserted. -/
theorem assignment_success_despite_update_failures_witness :
    (freshAssignReq.booking_date_id = some 12 ∧ freshAssignReq.property_id = some 3 ∧
     freshAssignReq.start_date = some "2024-02-01" ∧ freshAssignReq.end_date = some "2024-02-05" ∧
     singleQ (conflictDB.booked_properties.filter (fun b => b.booking_id == 12)) = none ∧
     (conflictDB.booked_properties.filter (fun b => b.property_id == 3)).find?
       (fun b => datesOverlap "2024-02-01" "2024-02-05" b.start_date b.end_date) = none ∧
     failTrailingAssign.insertFails = false) ∧
    ((propertyAssignment freshAssignReq conflictDB failTrailingAssign).1.httpStatus = 201 ∧
     ∃ row, (propertyAssignment freshAssignReq conflictDB failTrailingAssign).1 =
        AssignResp.created row ∧
       row ∈ (propertyAssignment freshAssignReq conflictDB failTrailingAssign).2.booked_properties) :=
  ⟨⟨rfl, rfl, rfl, rfl, by decide, by decide, rfl⟩,
   assignment_success_despite_update_failures freshAssignReq conflictDB
     failTrailingAssign 12 3 "2024-02-01" "2024-02-05" rfl rfl rfl rfl
     (by decide) (by decide) rfl⟩

/-- C9 counterexample: Invoices are not one-to-one with a booking — two
successive successful `create-session` calls for the same `booking_id` leave
two Invoice rows referencing that booking, so "at most one Invoice row
references it" fails. -/
theorem create_session_duplicate_invoices :
    ((createSession csReq dupDB sessionB sessionOk).2.invoices.filter
      (fun i => i.booking_id == 7)).length = 2 ∧
    ¬ ((createSession csReq dupDB sessionB sessionOk).2.invoices.filter
      (fun i => i.booking_id == 7)).length ≤ 1 := by
  decide

/-- C9 (amended): an Invoice row is created each time a payment session is
opened for a booking; there is no uniqueness check, so every successful
`create-session` call appends one more Invoice row referencing that booking
(repeated calls for the same `booking_id` leave one row per call). -/
theorem create_session_inserts_invoice_each_call
    (req : CreateSessionReq) (db : DB) (sess : NewSession) (o : SessionOracle)
    (bid : Nat) (booking : BookingRow) (property : PropertyRow)
    (hreq : req.booking_id = some bid)
    (hbk : singleQ (db.bookings.filter (fun b => b.id == bid)) = some booking)
    (hpr : db.properties.find? (fun p => p.id == booking.property_id) = some property)
    (hoc : o.sessionCreateFails = false) (hoi : o.invoiceInsertFails = false) :
    ∃ inv : InvoiceRow,
      (createSession req db sess o).2.invoices = db.invoices ++ [inv] ∧
      inv.booking_id = booking.id ∧ inv.stripe_session_id = sess.id ∧
      inv.status = "unpaid" := by
  obtain ⟨rb⟩ := req
  simp only at hreq
  subst hreq
  obtain ⟨oc, oi⟩ := o
  simp only at hoc hoi
  subst hoc hoi
  cases hj : jsTime booking.start_date <;> cases hj2 : jsTime booking.end_date <;>
    · simp only [createSession, hbk, hpr, hj, hj2, Bool.false_eq_true, if_false]
      exact ⟨_, rfl, rfl, rfl, rfl⟩

/-- C9 witness: the second call for booking 7 appends one more Invoice row
referencing it on top of the one left by the first call. -/
theorem create_session_inserts_invoice_each_call_witness :
    (csReq.booking_id = some 7 ∧
     singleQ (dupDB.bookings.filter (fun b => b.id == 7)) = some marchBooking ∧
     dupDB.properties.find? (fun p => p.id == marchBooking.property_id) = some fiftyProperty ∧
     sessionOk.sessionCreateFails = false ∧ sessionOk.invoiceInsertFails = false) ∧
    (∃ inv : InvoiceRow,
      (createSession csReq dupDB sessionB sessionOk).2.invoices = dupDB.invoices ++ [inv] ∧
      inv.booking_id = marchBooking.id ∧ inv.stripe_session_id = sessionB.id ∧
      inv.status = "unpaid") :=
  ⟨⟨rfl, by decide, by decide, rfl, rfl⟩,
   create_session_inserts_invoice_each_call csReq dupDB sessionB sessionOk 7
     marchBooking fiftyProperty rfl (by decide) (by decide) rfl rfl⟩

/-- C10: the property-assignment endpoint does not require the referenced
RequestedDateRange (or Property) to exist — when `booking_date_id` matches
no `booking_dates` row, the lookup failure is tolerated,
`booking_request_id` is stored as null on the inserted row, the Assignment
is still inserted, and the endpoint answers HTTP 201 rather than 404. -/
theorem assignment_tolerates_missing_booking_date
    (req : AssignReq) (db : DB) (o : AssignOracle) (bdi pid : Nat) (sd ed : String)
    (hb : req.booking_date_id = some bdi) (hp : req.property_id = some pid)
    (hs : req.start_date = some sd) (he : req.end_date = some ed)
    (hnodate : db.booking_dates.filter (fun b => b.id == bdi) = [])
    (hnoexist : singleQ (db.booked_properties.filter (fun b => b.booking_id == bdi)) = none)
    (hnoconf : (db.booked_properties.filter (fun b => b.property_id == pid)).find?
        (fun b => datesOverlap sd ed b.start_date b.end_date) = none)
    (hins : o.insertFails = false) :
    (propertyAssignment req db o).1.httpStatus = 201 ∧
    ∃ row, (propertyAssignment req db o).1 = AssignResp.created row ∧
      row.booking_request_id = none ∧
      row ∈ (propertyAssignment req db o).2.booked_properties := by
  obtain ⟨f1, f2, f3, f4, f5, f6, f7, f8, f9, f10, f11, f12, f13, f14, f15⟩ := req
  simp only at hb hp hs he
  subst hb hp hs he
  obtain ⟨oi, op, ob⟩ := o
  simp only at hins
  subst hins
  cases op <;> cases ob <;>
    · simp only [propertyAssignment, hnoexist, hnoconf, hnodate, Option.isSome_none,
        Bool.false_eq_true, if_false]
      exact ⟨rfl, _, rfl, by simp [singleQ], by simp⟩

/-- C10 witness: a request naming RequestedDateRange 99, absent from an
empty database (no Property row either), is accepted with 201 and the
inserted row stores `booking_request_id = null`. -/
theorem assignment_tolerates_missing_booking_date_witness :
    (missingDateReq.booking_date_id = some 99 ∧ missingDateReq.property_id = some 5 ∧
     missingDateReq.start_date = some "2024-06-01" ∧ missingDateReq.end_date = some "2024-06-03" ∧
     emptyDB.booking_dates.filter (fun b => b.id == 99) = [] ∧
     singleQ (emptyDB.booked_properties.filter (fun b => b.booking_id == 99)) = none ∧
     (emptyDB.booked_properties.filter (fun b => b.property_id == 5)).find?
       (fun b => datesOverlap "2024-06-01" "2024-06-03" b.start_date b.end_date) = none ∧
     allOkAssign.insertFails = false) ∧
    ((propertyAssignment missingDateReq emptyDB allOkAssign).1.httpStatus = 201 ∧
     ∃ row, (propertyAssignment missingDateReq emptyDB allOkAssign).1 =
        AssignResp.created row ∧
       row.booking_request_id = none ∧
       row ∈ (propertyAssignment missingDateReq emptyDB allOkAssign).2.booked_properties) :=
  ⟨⟨rfl, rfl, rfl, rfl, rfl, rfl, rfl, rfl⟩,
   assignment_tolerates_missing_booking_date missingDateReq emptyDB allOkAssign
     99 5 "2024-06-01" "2024-06-03" rfl rfl rfl rfl rfl rfl rfl rfl⟩

end DionBackend
